import Mathlib

/-!
Verification of the `auth0_cleanup` Lambda (`lambda_src/index.js`) against its
specification. The JavaScript is shallowly embedded: network and object-store
results are oracle inputs (`Except` values / result functions), `process.env`
is an association list, and the clock (`new Date().toISOString()`) is an
explicit parameter. JavaScript string falsiness (empty string is falsy) is
modelled explicitly wherever the source relies on it.
-/

deriving instance DecidableEq for Except

namespace Auth0Cleanup

/-! ### JavaScript string primitives -/

/-- Characters treated as WhiteSpace / LineTerminator by ECMAScript
`String.prototype.trimStart` (includes NBSP and the BOM U+FEFF). -/
def jsWhitespaceChar (c : Char) : Bool :=
  c == ' ' || c == '\t' || c == '\n' || c == '\r' || c == '\x0b' || c == '\x0c' ||
  c == '\u00A0' || c == '\uFEFF' || c == '\u1680' || c == '\u2000' || c == '\u2001' ||
  c == '\u2002' || c == '\u2003' || c == '\u2004' || c == '\u2005' || c == '\u2006' ||
  c == '\u2007' || c == '\u2008' || c == '\u2009' || c == '\u200A' || c == '\u2028' ||
  c == '\u2029' || c == '\u202F' || c == '\u205F' || c == '\u3000'

/-- Embeds `s.trimStart()`. -/
def jsTrimStart (s : String) : String :=
  String.mk (s.data.dropWhile jsWhitespaceChar)

/-- Embeds `s.trimEnd()`. -/
def jsTrimEnd (s : String) : String :=
  String.mk ((s.data.reverse.dropWhile jsWhitespaceChar).reverse)

/-- Embeds `s.trim()`. -/
def jsTrim (s : String) : String :=
  jsTrimEnd (jsTrimStart s)

/-- Embeds `s.toLowerCase()` (the strings compared in the source are ASCII). -/
def lowerStr (s : String) : String :=
  String.mk (s.data.map Char.toLower)

/-- Embeds `s.startsWith(p)`. -/
def strStarts (s p : String) : Bool :=
  p.data.isPrefixOf s.data

/-- Embeds the leading-BOM strip `s.replace` with pattern BOM-optional: removes one leading BOM if present. -/
def stripBom (s : String) : String :=
  match s.data with
  | [] => s
  | c :: rest => if c == '\uFEFF' then String.mk rest else s

/-- Embeds `name.substring(name.lastIndexOf("/") + 1)`: the segment after the
last slash (the whole string when there is no slash). -/
def lastSeg (s : String) : String :=
  String.mk (s.data.reverse.takeWhile (· != '/')).reverse

/-- Removes the first occurrence of `pat` from the character list, or `none`
when `pat` does not occur. Helper for `stripFlat`. -/
def replaceFirstAux (pat : List Char) : List Char → Option (List Char)
  | [] => if pat.isEmpty then some [] else none
  | c :: rest =>
    if pat.isPrefixOf (c :: rest) then some ((c :: rest).drop pat.length)
    else (replaceFirstAux pat rest).map (fun r => c :: r)

/-- JavaScript string falsiness: `v || d` where `v` may be `undefined` and the
empty string is falsy. -/
def jsOr (v : Option String) (d : String) : String :=
  match v with
  | some s => if s == "" then d else s
  | none => d

/-! ### Data model: accounts and CSV rows -/

/-- One entry of an Auth0 user's `identities` array (only the fields the
Lambda reads). -/
structure Identity where
  provider : String
  connection : String
deriving DecidableEq, Repr

/-- A JavaScript number as far as `safeNum` can distinguish it: a finite
number carries its decimal rendering (the result of `String(n)`). -/
inductive JsNum where
  | finite (render : String)
  | nan
  | posInf
  | negInf
deriving DecidableEq, Repr

/-- An Auth0 user record as read by the Lambda; `Option` marks fields that may
be absent in the JSON. -/
structure User where
  user_id : Option String := none
  email : Option String := none
  name : Option String := none
  nickname : Option String := none
  username : Option String := none
  identities : Option (List Identity) := none
  created_at : Option String := none
  last_login : Option String := none
  logins_count : Option JsNum := none
deriving DecidableEq, Repr

/-- The fixed CSV schema constant `CSV_HEADER` (with its trailing newline). -/
def CSV_HEADER : String :=
  "ssoid,deactivation_flag,last_update_timestamp,user_id,email,name,providers,connections,created_at,last_login,logins_count,deleted_by\n"

/-- Embeds `CSV_HEADER.split("\n")[0]`: the header line without the newline. -/
def headerLine : String :=
  String.mk (CSV_HEADER.data.takeWhile (· != '\n'))

/-- The test `/[",\n]/.test(s)` of `csvEscape`. -/
def needsQuote (s : String) : Bool :=
  s.data.any (fun c => c == ',' || c == '"' || c == '\n')

/-- Embeds `csvEscape`: quote the field, doubling internal double quotes, when
it contains a comma, double quote or newline; otherwise return it unchanged. -/
def csvEscape (s : String) : String :=
  if needsQuote s then
    String.mk ('"' :: s.data.foldr (fun c acc => if c == '"' then '"' :: '"' :: acc else c :: acc) ['"'])
  else s

/-- Embeds `safeNum`: a finite number renders as itself, anything else as the
empty string. -/
def safeNum (n : Option JsNum) : String :=
  match n with
  | some (JsNum.finite r) => r
  | _ => ""

/-- The 12 fields of `buildCsvRow` before CSV escaping, in source order.
`now` stands for `new Date().toISOString()`. -/
def rowFields (ssoid : String) (user : User) (now deletedBy : String) : List String :=
  [ ssoid,
    "Y",
    now,
    jsOr user.user_id "",
    jsOr user.email "",
    jsOr user.name (jsOr user.nickname (jsOr user.username "")),
    String.intercalate ";" ((user.identities.getD []).map Identity.provider),
    String.intercalate ";" ((user.identities.getD []).map Identity.connection),
    jsOr user.created_at "",
    jsOr user.last_login "",
    safeNum user.logins_count,
    deletedBy ]

/-- Embeds `buildCsvRow`: escape each field, join with commas, add a newline. -/
def buildCsvRow (ssoid : String) (user : User) (now deletedBy : String) : String :=
  String.intercalate "," ((rowFields ssoid user now deletedBy).map csvEscape) ++ "\n"

/-! ### CSV Ledger Writer (`appendRowsToCsvInS3`) -/

/-- The fields of an AWS SDK error that `appendRowsToCsvInS3` inspects. -/
structure S3Error where
  httpStatusCode : Option Nat := none
  errName : Option String := none
  errCode : Option String := none
deriving DecidableEq, Repr

/-- The not-found test on a read error: status 404, or `name`/`Code` equal to
`"NoSuchKey"`. -/
def isNotFound (e : S3Error) : Bool :=
  e.httpStatusCode == some 404 || e.errName == some "NoSuchKey" || e.errCode == some "NoSuchKey"

/-- The header-normalisation step of `appendRowsToCsvInS3`: when the content is
empty or does not start (after `trimStart`/`toLowerCase`) with the header line,
prefix the canonical header, stripping a leading BOM from nonempty content. -/
def ensureHeader (existing : String) : String :=
  if existing == "" || !(strStarts (lowerStr (jsTrimStart existing)) headerLine) then
    CSV_HEADER ++ (if existing == "" then "" else stripBom existing)
  else existing

/-- Embeds `appendRowsToCsvInS3`. `getResult` is the outcome of the S3
`GetObject` call; the returned `.ok` value is the exact body handed to
`PutObject`, and `.error` propagates the read failure. -/
def appendRowsToCsvInS3 (getResult : Except S3Error String) (rows : List String) :
    Except S3Error String :=
  match getResult with
  | Except.error e =>
    if isNotFound e then Except.ok (ensureHeader "" ++ String.join rows)
    else Except.error e
  | Except.ok existing => Except.ok (ensureHeader existing ++ String.join rows)

/-! ### Config Resolver (`loadParamsIntoEnv`) -/

/-- `process.env` as an association list; `envGet` returns the first binding. -/
abbrev Env : Type := List (String × String)

/-- Reads `process.env[k]` (`none` models `undefined`). -/
def envGet (e : Env) (k : String) : Option String :=
  (e.find? (fun p => p.1 == k)).map Prod.snd

/-- `process.env[k] = v`: the new binding shadows any older one. -/
def envSet (e : Env) (k v : String) : Env :=
  (k, v) :: e

/-- JavaScript truthiness of an env value: set and non-empty. -/
def truthy (o : Option String) : Bool :=
  match o with
  | some s => s != ""
  | none => false

/-- The recognized configuration keys, `EXPECTED_KEYS` in the source. -/
def EXPECTED_KEYS : List String :=
  ["S3_BUCKET", "S3_KEY", "AUTH0_DOMAIN", "AUTH0_AUDIENCE", "AUTH0_CLIENT_ID",
   "AUTH0_CLIENT_SECRET", "SSOID"]

/-- The flat naming convention `FLAT_PREFIX` of the source. -/
def flatPre : String := "auth0_cleanup_"

/-- The hierarchical default `DEFAULT_PARAM_PREFIX` of the source. -/
def defaultParamPre : String := "/auth0-cleanup/"

/-- Embeds `p.Name.replace(FLAT_PREFIX, "")`: JavaScript `replace` with a
string pattern removes only the first occurrence. -/
def stripFlat (s : String) : String :=
  match replaceFirstAux flatPre.data s.data with
  | some r => String.mk r
  | none => s

/-- One store parameter recorded into the env: derive the key with `keyOf`,
and set it only when it is recognized and not already truthy (the shared body
of both loops of `loadParamsIntoEnv`). -/
def recordParam (keyOf : String → String) (e : Env) (p : String × String) : Env :=
  if EXPECTED_KEYS.contains (keyOf p.1) && !(truthy (envGet e (keyOf p.1))) then
    envSet e (keyOf p.1) p.2
  else e

/-- A whole phase of `loadParamsIntoEnv`: fold `recordParam` over the
parameters the store returned. -/
def phaseFold (keyOf : String → String) (e : Env) (ps : List (String × String)) : Env :=
  ps.foldl (recordParam keyOf) e

/-- The hierarchical phase of `loadParamsIntoEnv`: when the (trimmed) prefix
is path-like (starts with `/`), record every returned parameter under the
segment after its last slash. `hierParams` is the concatenation of all pages
the `GetParametersByPath` listing returned. -/
def hierPhaseRun (e : Env) (hierParams : List (String × String)) : Env :=
  if strStarts (jsTrim (jsOr (envGet e "PARAM_PREFIX") defaultParamPre)) "/" then
    phaseFold lastSeg e hierParams
  else e

/-- The recognized keys still unset (not truthy) in the env. -/
def missingKeys (e : Env) : List String :=
  EXPECTED_KEYS.filter (fun k => !(truthy (envGet e k)))

/-- The flat-fallback phase of `loadParamsIntoEnv`: batch-fetch
`<flat-prefix><KEY>` for every still-missing key (`flatStore` answers the
`GetParameters` call) and record each found parameter under its name with the
first occurrence of the flat prefix removed. No request is made when nothing
is missing. -/
def flatPhaseRun (e : Env) (flatStore : String → Option String) : Env :=
  if (missingKeys e).isEmpty then e
  else
    phaseFold stripFlat e
      (((missingKeys e).map (fun k => flatPre ++ k)).filterMap
        (fun n => (flatStore n).map (fun v => (n, v))))

/-- Embeds `loadParamsIntoEnv` (one run; the `paramsLoaded` latch is outside
this model): the hierarchical phase, then the flat-name fallback phase. -/
def loadParamsIntoEnv (e : Env) (hierParams : List (String × String))
    (flatStore : String → Option String) : Env :=
  flatPhaseRun (hierPhaseRun e hierParams) flatStore

/-! ### Small utils (`stripProtocol`, `getSsoid`, `getDeletedBy`, `mustEnv`) -/

/-- Drops `pre` from the front of `s` case-insensitively, if present. -/
def dropCI (pre s : String) : Option String :=
  if strStarts (lowerStr s) (lowerStr pre) then some (String.mk (s.data.drop pre.data.length))
  else none

/-- Embeds `stripProtocol`: remove a leading `http://` or `https://`
(case-insensitive) and any trailing slashes. -/
def stripProtocol (domain : String) : String :=
  let s1 := match dropCI "https://" domain with
    | some r => r
    | none => match dropCI "http://" domain with
      | some r => r
      | none => domain
  String.mk (s1.data.reverse.dropWhile (· == '/')).reverse

/-- The inbound Lambda event: the two places an SSOID override can live. -/
structure LambdaEvent where
  pathSsoid : Option String := none
  querySsoid : Option String := none
deriving DecidableEq, Repr

/-- The Lambda execution context (only `functionName` is read). -/
structure Context where
  functionName : Option String := none
deriving DecidableEq, Repr

/-- Embeds `getSsoid`: path parameter, then query parameter, then the `SSOID`
env value, then the placeholder. -/
def getSsoid (e : Env) (event : LambdaEvent) : String :=
  jsOr event.pathSsoid (jsOr event.querySsoid (jsOr (envGet e "SSOID") "REPLACE_WITH_SSOID"))

/-- Embeds `getDeletedBy`: context function name, then two env fallbacks, then
the literal `"local"`. -/
def getDeletedBy (ctx : Context) (e : Env) : String :=
  jsOr ctx.functionName
    (jsOr (envGet e "AWS_LAMBDA_FUNCTION_NAME") (jsOr (envGet e "DELETED_BY") "local"))

/-- Embeds `mustEnv`: return the value, or throw `Missing <name>` when the
value is absent or falsy (the empty string). -/
def mustEnv (e : Env) (name : String) : Except String String :=
  match envGet e name with
  | some v => if v == "" then Except.error ("Missing " ++ name) else Except.ok v
  | none => Except.error ("Missing " ++ name)

/-- Embeds the argument checks of `getMgmtToken`; the token-endpoint exchange
itself is the oracle `net` (its `Except.error` is any thrown failure). -/
def getMgmtToken (net : Except String String)
    (domain clientId clientSecret audience : String) : Except String String :=
  if domain == "" then Except.error "Missing AUTH0_DOMAIN"
  else if clientId == "" then Except.error "Missing AUTH0_CLIENT_ID"
  else if clientSecret == "" then Except.error "Missing AUTH0_CLIENT_SECRET"
  else if audience == "" then Except.error "Missing AUTH0_AUDIENCE"
  else net

/-! ### Identity-Service Client (`searchUsersByQuery`) -/

/-- How the search response body parses: not JSON at all, JSON that is not an
array, or a JSON array of users. -/
inductive BodyParse where
  | notJson
  | jsonNonArray
  | jsonArray (users : List User)
deriving DecidableEq, Repr

/-- An HTTP response to the user search: status code and parsed body. -/
structure SearchHttp where
  status : Nat
  body : BodyParse
deriving DecidableEq, Repr

/-- Embeds `searchUsersByQuery`. `fetch` is the oracle for the HTTP GET, fed
the domain, token and query; `Except.error` is a transport failure. Every
failure branch of the source lands in the outer `catch` or an early `return`
and yields `[]`; the function itself can never throw. -/
def searchUsersByQuery (fetch : String → String → String → Except String SearchHttp)
    (domain token q : String) : List User :=
  match fetch domain token q with
  | Except.error _ => []
  | Except.ok r =>
    if !(200 ≤ r.status && r.status ≤ 299) then []
    else
      match r.body with
      | BodyParse.notJson => []
      | BodyParse.jsonNonArray => []
      | BodyParse.jsonArray users => if users.length == 0 then [] else users

/-! ### Orchestrator (`handler`) -/

/-- One element of the `results` array: `{ user_id, deleted, error? }`. -/
structure ResultEntry where
  user_id : Option String
  deleted : Bool
  error : Option String := none
deriving DecidableEq, Repr

/-- The JSON response body; `none` fields are absent from the object. -/
structure Body where
  message : Option String := none
  ssoid : Option String := none
  count : Option Nat := none
  results : Option (List ResultEntry) := none
  error : Option String := none
deriving DecidableEq, Repr

/-- The response envelope built by `response(statusCode, body)`. -/
structure Response where
  statusCode : Nat
  contentTypeHeader : String
  body : Body
deriving DecidableEq, Repr

/-- Embeds the `response` helper (the body stays structured; the source
serializes it with `JSON.stringify`). -/
def response (statusCode : Nat) (body : Body) : Response :=
  { statusCode := statusCode, contentTypeHeader := "application/json", body := body }

/-- The observable side effects of one `handler` run: the search queries
issued in order, the user ids deletion was attempted on in order, and the S3
append call (its row batch and its outcome) if one was made. -/
structure Trace where
  queries : List String
  deletesAttempted : List (Option String)
  appendCall : Option (List String × Except String Unit)
deriving Repr

/-- The external world one invocation runs against: the env after
`loadParamsIntoEnv`, the token-endpoint result, the search fetch oracle, the
per-user delete outcome, the ledger-append outcome, and the clock. -/
structure World where
  env : Env
  net : Except String String
  fetch : String → String → String → Except String SearchHttp
  delete : Option String → Except String Unit
  append : List String → Except String Unit
  now : String

/-- The first search query, `identities.user_id:"<ssoid>"`. -/
def identQuery (ssoid : String) : String :=
  "identities.user_id:\"" ++ ssoid ++ "\""

/-- The fallback search query, `app_metadata.ssoid:"<ssoid>"`. -/
def metaQuery (ssoid : String) : String :=
  "app_metadata.ssoid:\"" ++ ssoid ++ "\""

/-- The per-account deletion loop (step 6 of the handler): returns the
`results` entries and the built CSV rows, in order. -/
def processUsers (w : World) (ssoid deletedBy : String) (users : List User) :
    List ResultEntry × List String :=
  users.foldl
    (fun acc u =>
      match w.delete u.user_id with
      | Except.ok _ =>
        (acc.1 ++ [{ user_id := u.user_id, deleted := true }],
         acc.2 ++ [buildCsvRow ssoid u w.now deletedBy])
      | Except.error m =>
        (acc.1 ++ [{ user_id := u.user_id, deleted := false, error := some m }], acc.2))
    ([], [])

/-- Steps 6–7 of the handler once a user list is in hand: delete each user,
append to S3 when rows were built and a bucket is configured, and build the
success response. -/
def handlerWithUsers (w : World) (ctx : Context) (ssoid : String) (queries : List String)
    (users : List User) : Response × Trace :=
  let deletedBy := getDeletedBy ctx w.env
  let pr := processUsers w ssoid deletedBy users
  let appendCall := if 0 < pr.2.length && truthy (envGet w.env "S3_BUCKET") then
      some (pr.2, w.append pr.2)
    else none
  (response 200
    { message := some "Delete attempt complete", ssoid := some ssoid,
      count := some pr.1.length, results := some pr.1 },
   ⟨queries, users.map User.user_id, appendCall⟩)

/-- Steps 4–7 of the handler: resolve the SSOID, run the two-query search
fallback, and either report "Cannot find user" or process the matches. -/
def handlerAfterToken (w : World) (event : LambdaEvent) (ctx : Context)
    (domain token : String) : Response × Trace :=
  let ssoid := getSsoid w.env event
  let users1 := searchUsersByQuery w.fetch domain token (identQuery ssoid)
  let queries := if users1.length == 0 then [identQuery ssoid, metaQuery ssoid]
    else [identQuery ssoid]
  let users := if users1.length == 0 then
      searchUsersByQuery w.fetch domain token (metaQuery ssoid)
    else users1
  if users.length == 0 then
    (response 200
      { message := some "Cannot find user", ssoid := some ssoid,
        results := some [] },
     ⟨queries, [], none⟩)
  else
    handlerWithUsers w ctx ssoid queries users

/-- Embeds the `handler` after `loadParamsIntoEnv` (the env in `w` is the
already-loaded one). Returns the response and the side-effect trace. A failed
ledger append is recorded in the trace but — like the try/catch of the source —
never changes the response. -/
def handler (w : World) (event : LambdaEvent) (ctx : Context) : Response × Trace :=
  match mustEnv w.env "AUTH0_DOMAIN" with
  | Except.error m => (response 500 { error := some m }, ⟨[], [], none⟩)
  | Except.ok domain =>
    match mustEnv w.env "AUTH0_CLIENT_ID" with
    | Except.error m => (response 500 { error := some m }, ⟨[], [], none⟩)
    | Except.ok clientId =>
      match mustEnv w.env "AUTH0_CLIENT_SECRET" with
      | Except.error m => (response 500 { error := some m }, ⟨[], [], none⟩)
      | Except.ok clientSecret =>
        match getMgmtToken w.net domain clientId clientSecret
            (jsOr (envGet w.env "AUTH0_AUDIENCE")
              ("https://" ++ stripProtocol domain ++ "/api/v2/")) with
        | Except.error m => (response 500 { error := some m }, ⟨[], [], none⟩)
        | Except.ok token => handlerAfterToken w event ctx domain token

/-! ### Helper lemmas -/

/-- The quoting loop of `csvEscape`, rephrased: folding the doubling step
equals concatenating the per-character expansions and closing with a quote. -/
theorem csvQuote_foldr_eq_bind (l : List Char) :
    l.foldr (fun c acc => if c == '"' then '"' :: '"' :: acc else c :: acc) ['"'] =
      (l.flatMap (fun c => if c == '"' then ['"', '"'] else [c])) ++ ['"'] := by
  induction l with
  | nil => rfl
  | cons c rest ih =>
    simp only [List.foldr_cons, List.flatMap_cons, ih]
    by_cases h : (c == '"') = true <;> simp [h]

/-- `envGet` after `envSet`: the new binding wins on its key, everything else
is unchanged. -/
theorem envGet_envSet (e : Env) (k' v' k : String) :
    envGet (envSet e k' v') k = if k' = k then some v' else envGet e k := by
  simp only [envGet, envSet, List.find?]
  by_cases h : k' = k
  · simp [h]
  · have hb : (k' == k) = false := by simp [h]
    simp [hb, h]

/-- `recordParam` never replaces a truthy (set, non-empty) binding. -/
theorem recordParam_preserve (keyOf : String → String) (e : Env) (p : String × String)
    (k v : String) (hv : envGet e k = some v) (hne : v ≠ "") :
    envGet (recordParam keyOf e p) k = some v := by
  unfold recordParam
  split
  next hcond =>
    rw [envGet_envSet]
    by_cases hk : keyOf p.1 = k
    · exfalso
      rw [hk, hv] at hcond
      simp [truthy, hne] at hcond
    · simp [hk, hv]
  next hcond => exact hv

/-- A whole phase (`phaseFold`) never replaces a truthy binding. -/
theorem phaseFold_preserve (keyOf : String → String) (ps : List (String × String))
    (e : Env) (k v : String) (hv : envGet e k = some v) (hne : v ≠ "") :
    envGet (phaseFold keyOf e ps) k = some v := by
  induction ps generalizing e with
  | nil => exact hv
  | cons p rest ih =>
    exact ih (recordParam keyOf e p) (recordParam_preserve keyOf e p k v hv hne)

/-- The hierarchical phase never replaces a truthy binding. -/
theorem hierPhaseRun_preserve (e : Env) (hier : List (String × String)) (k v : String)
    (hv : envGet e k = some v) (hne : v ≠ "") :
    envGet (hierPhaseRun e hier) k = some v := by
  unfold hierPhaseRun
  split
  · exact phaseFold_preserve _ _ _ _ _ hv hne
  · exact hv

/-- The flat-fallback phase never replaces a truthy binding. -/
theorem flatPhaseRun_preserve (e : Env) (store : String → Option String) (k v : String)
    (hv : envGet e k = some v) (hne : v ≠ "") :
    envGet (flatPhaseRun e store) k = some v := by
  unfold flatPhaseRun
  split
  · exact hv
  · exact phaseFold_preserve _ _ _ _ _ hv hne

/-- `mustEnv` throws `Missing <name>` when the value is absent or empty. -/
theorem mustEnv_err (e : Env) (n : String)
    (h : envGet e n = some "" ∨ envGet e n = none) :
    mustEnv e n = Except.error ("Missing " ++ n) := by
  rcases h with h | h <;> simp [mustEnv, h]

/-- `mustEnv` returns the value when it is set and non-empty. -/
theorem mustEnv_ok (e : Env) (n v : String) (hv : envGet e n = some v) (hne : v ≠ "") :
    mustEnv e n = Except.ok v := by
  simp [mustEnv, hv, hne]

/-- When the three required settings resolve and the token exchange succeeds,
the handler proceeds to the search stage. -/
theorem handler_token_ok (w : World) (event : LambdaEvent) (ctx : Context)
    (d ci cs tk : String)
    (hd : mustEnv w.env "AUTH0_DOMAIN" = Except.ok d)
    (hci : mustEnv w.env "AUTH0_CLIENT_ID" = Except.ok ci)
    (hcs : mustEnv w.env "AUTH0_CLIENT_SECRET" = Except.ok cs)
    (ht : getMgmtToken w.net d ci cs
        (jsOr (envGet w.env "AUTH0_AUDIENCE")
          ("https://" ++ stripProtocol d ++ "/api/v2/")) = Except.ok tk) :
    handler w event ctx = handlerAfterToken w event ctx d tk := by
  simp only [handler, hd, hci, hcs, ht]

/-! ### Claims -/

/-- C1. For every non-empty row sequence, when the S3 read fails with the
distinguished not-found condition (status 404 or a `NoSuchKey` identifier),
`appendRowsToCsvInS3` treats the content as empty and writes back exactly the
canonical header followed by the rows in order; any other read failure
propagates to the caller. -/
theorem appendRows_notFound_writes_header_then_rows (e : S3Error) (rows : List String)
    (hnf : isNotFound e = true) (hne : rows ≠ []) :
    appendRowsToCsvInS3 (Except.error e) rows = Except.ok (CSV_HEADER ++ String.join rows) ∧
    ∀ e' : S3Error, isNotFound e' = false →
      appendRowsToCsvInS3 (Except.error e') rows = Except.error e' := by
  constructor
  · simp only [appendRowsToCsvInS3, hnf, if_pos]
    rw [show ensureHeader "" = CSV_HEADER from by decide]
  · intro e' h
    simp [appendRowsToCsvInS3, h]

/-- Witness for C1 at a concrete 404 error and row batch. -/
theorem appendRows_notFound_writes_header_then_rows_witness :
    appendRowsToCsvInS3 (Except.error ⟨some 404, none, none⟩) ["a,b\n"] =
      Except.ok (CSV_HEADER ++ String.join ["a,b\n"]) ∧
    ∀ e' : S3Error, isNotFound e' = false →
      appendRowsToCsvInS3 (Except.error e') ["a,b\n"] = Except.error e' :=
  appendRows_notFound_writes_header_then_rows ⟨some 404, none, none⟩ ["a,b\n"]
    (by decide) (by decide)

/-- C2, counterexample. Existing content whose first line is the header
line with extra text appended (`...deleted_byx`) has a first line that differs
from the canonical header, so the claim requires the canonical header to be
prefixed; the startsWith prefix test of the code accepts it and writes the
original content unchanged. -/
theorem appendRows_header_firstLine_counterexample :
    appendRowsToCsvInS3 (Except.ok (headerLine ++ "x\n")) ["r\n"] =
      Except.ok ((headerLine ++ "x\n") ++ String.join ["r\n"]) ∧
    lowerStr (String.mk ((headerLine ++ "x\n").data.takeWhile (· != '\n'))) ≠ headerLine ∧
    appendRowsToCsvInS3 (Except.ok (headerLine ++ "x\n")) ["r\n"] ≠
      Except.ok (CSV_HEADER ++ (headerLine ++ "x\n") ++ String.join ["r\n"]) := by
  refine ⟨by decide, by decide, by decide⟩

/-- C2, amended. For existing non-empty content: if the content — after
discarding leading JavaScript whitespace (which includes a BOM) and
lowercasing — begins with the canonical header line as a string PREFIX
(not an equality on the first line), the original content is written back
followed by the new rows with no header added; otherwise the canonical
header, then the original content with one leading BOM removed, then the new
rows are written. -/
theorem appendRows_existing_content (existing : String) (rows : List String)
    (hne : existing ≠ "") :
    (strStarts (lowerStr (jsTrimStart existing)) headerLine = true →
      appendRowsToCsvInS3 (Except.ok existing) rows =
        Except.ok (existing ++ String.join rows)) ∧
    (strStarts (lowerStr (jsTrimStart existing)) headerLine = false →
      appendRowsToCsvInS3 (Except.ok existing) rows =
        Except.ok ((CSV_HEADER ++ stripBom existing) ++ String.join rows)) := by
  constructor
  · intro h
    simp [appendRowsToCsvInS3, ensureHeader, h, hne]
  · intro h
    simp [appendRowsToCsvInS3, ensureHeader, h, hne]

/-- Witness for C2 (amended): an object already starting with the header
keeps it un-duplicated; one starting with other text gets the header
prefixed. -/
theorem appendRows_existing_content_witness :
    (appendRowsToCsvInS3 (Except.ok (CSV_HEADER ++ "old\n")) ["r\n"] =
      Except.ok ((CSV_HEADER ++ "old\n") ++ String.join ["r\n"])) ∧
    (appendRowsToCsvInS3 (Except.ok "old\n") ["r\n"] =
      Except.ok ((CSV_HEADER ++ stripBom "old\n") ++ String.join ["r\n"])) :=
  ⟨(appendRows_existing_content (CSV_HEADER ++ "old\n") ["r\n"] (by decide)).1 (by decide),
   (appendRows_existing_content "old\n" ["r\n"] (by decide)).2 (by decide)⟩

/-- C5. `searchUsersByQuery` is a total function into user lists (it can
never raise), and it returns the empty sequence on every transport error, on
every non-success HTTP status, on a body that does not parse as a JSON array,
and on an empty match. -/
theorem searchUsers_absorbs_failures
    (fetch : String → String → String → Except String SearchHttp)
    (domain token q : String) :
    (∀ m, fetch domain token q = Except.error m →
      searchUsersByQuery fetch domain token q = []) ∧
    (∀ r, fetch domain token q = Except.ok r →
      (200 ≤ r.status && r.status ≤ 299) = false →
      searchUsersByQuery fetch domain token q = []) ∧
    (∀ r, fetch domain token q = Except.ok r → r.body = BodyParse.notJson →
      searchUsersByQuery fetch domain token q = []) ∧
    (∀ r, fetch domain token q = Except.ok r → r.body = BodyParse.jsonNonArray →
      searchUsersByQuery fetch domain token q = []) ∧
    (∀ r, fetch domain token q = Except.ok r → r.body = BodyParse.jsonArray [] →
      searchUsersByQuery fetch domain token q = []) := by
  refine ⟨fun m h => by simp [searchUsersByQuery, h],
          fun r h hs => by simp [searchUsersByQuery, h, hs], ?_, ?_, ?_⟩ <;>
    · intro r h hb
      simp only [searchUsersByQuery, h, hb]
      split <;> simp

/-- Witness for C5 across all five absorbed failure shapes. -/
theorem searchUsers_absorbs_failures_witness :
    searchUsersByQuery (fun _ _ _ => Except.error "ECONNRESET") "d" "t" "q" = [] ∧
    searchUsersByQuery (fun _ _ _ => Except.ok ⟨403, BodyParse.jsonArray [{}]⟩) "d" "t" "q" = [] ∧
    searchUsersByQuery (fun _ _ _ => Except.ok ⟨200, BodyParse.notJson⟩) "d" "t" "q" = [] ∧
    searchUsersByQuery (fun _ _ _ => Except.ok ⟨200, BodyParse.jsonNonArray⟩) "d" "t" "q" = [] ∧
    searchUsersByQuery (fun _ _ _ => Except.ok ⟨200, BodyParse.jsonArray []⟩) "d" "t" "q" = [] :=
  ⟨(searchUsers_absorbs_failures _ "d" "t" "q").1 "ECONNRESET" rfl,
   (searchUsers_absorbs_failures _ "d" "t" "q").2.1 ⟨403, BodyParse.jsonArray [{}]⟩ rfl (by decide),
   (searchUsers_absorbs_failures _ "d" "t" "q").2.2.1 ⟨200, BodyParse.notJson⟩ rfl rfl,
   (searchUsers_absorbs_failures _ "d" "t" "q").2.2.2.1 ⟨200, BodyParse.jsonNonArray⟩ rfl rfl,
   (searchUsers_absorbs_failures _ "d" "t" "q").2.2.2.2 ⟨200, BodyParse.jsonArray []⟩ rfl rfl⟩

/-- C9, counterexample. A recognized key whose pre-resolution value is
the empty string — a present value — is overwritten by the hierarchical
phase, because the already-set test of the source is JavaScript truthiness
(`!process.env[key]`), which treats the empty string as unset. -/
theorem loadParams_overwrites_empty_counterexample :
    envGet [("S3_BUCKET", "")] "S3_BUCKET" = some "" ∧
    envGet (loadParamsIntoEnv [("S3_BUCKET", "")]
        [("/auth0-cleanup/S3_BUCKET", "store-bucket")] (fun _ => none)) "S3_BUCKET" =
      some "store-bucket" ∧
    (some "store-bucket" : Option String) ≠ some "" := by
  refine ⟨by decide, by decide, by decide⟩

/-- C9, amended. For every recognized configuration key, neither
resolution phase overwrites a value that is already set to a NON-EMPTY string: such a value remains the value of that key after resolution. (A key set
to the empty string counts as unset and may be filled by either phase.) -/
theorem loadParams_never_overwrites_nonempty (e : Env)
    (hier : List (String × String)) (store : String → Option String)
    (k v : String) (hk : k ∈ EXPECTED_KEYS) (hv : envGet e k = some v) (hne : v ≠ "") :
    envGet (loadParamsIntoEnv e hier store) k = some v :=
  flatPhaseRun_preserve _ store k v (hierPhaseRun_preserve e hier k v hv hne) hne

/-- Witness for C9 (amended): an env-provided `AUTH0_DOMAIN` survives
resolution even though both phases carry competing store values. -/
theorem loadParams_never_overwrites_nonempty_witness :
    "AUTH0_DOMAIN" ∈ EXPECTED_KEYS ∧
    envGet [("AUTH0_DOMAIN", "env.example.com")] "AUTH0_DOMAIN" = some "env.example.com" ∧
    envGet (loadParamsIntoEnv [("AUTH0_DOMAIN", "env.example.com")]
        [("/auth0-cleanup/AUTH0_DOMAIN", "hier.example.com")]
        (fun _ => some "flat.example.com")) "AUTH0_DOMAIN" = some "env.example.com" :=
  ⟨by decide, by decide,
   loadParams_never_overwrites_nonempty [("AUTH0_DOMAIN", "env.example.com")]
     [("/auth0-cleanup/AUTH0_DOMAIN", "hier.example.com")] (fun _ => some "flat.example.com")
     "AUTH0_DOMAIN" "env.example.com" (by decide) (by decide) (by decide)⟩

/-- C10. The required-setting check treats an empty-string value exactly
like an absent one: `mustEnv` throws `Missing <name>` in both cases, and for
each of `AUTH0_DOMAIN`, `AUTH0_CLIENT_ID`, `AUTH0_CLIENT_SECRET` (the earlier
ones being set) an empty or absent value makes the invocation fail terminally
with a 500 response whose body carries that error. -/
theorem mustEnv_empty_equals_missing (w : World) (event : LambdaEvent) (ctx : Context) :
    (∀ (e : Env) (n : String), envGet e n = some "" ∨ envGet e n = none →
      mustEnv e n = Except.error ("Missing " ++ n)) ∧
    (envGet w.env "AUTH0_DOMAIN" = some "" ∨ envGet w.env "AUTH0_DOMAIN" = none →
      handler w event ctx =
        (response 500 { error := some "Missing AUTH0_DOMAIN" }, ⟨[], [], none⟩)) ∧
    (∀ d, envGet w.env "AUTH0_DOMAIN" = some d → d ≠ "" →
      envGet w.env "AUTH0_CLIENT_ID" = some "" ∨ envGet w.env "AUTH0_CLIENT_ID" = none →
      handler w event ctx =
        (response 500 { error := some "Missing AUTH0_CLIENT_ID" }, ⟨[], [], none⟩)) ∧
    (∀ d ci, envGet w.env "AUTH0_DOMAIN" = some d → d ≠ "" →
      envGet w.env "AUTH0_CLIENT_ID" = some ci → ci ≠ "" →
      envGet w.env "AUTH0_CLIENT_SECRET" = some "" ∨
        envGet w.env "AUTH0_CLIENT_SECRET" = none →
      handler w event ctx =
        (response 500 { error := some "Missing AUTH0_CLIENT_SECRET" }, ⟨[], [], none⟩)) := by
  refine ⟨mustEnv_err, fun h => ?_, fun d hd hdne h => ?_, fun d ci hd hdne hci hcine h => ?_⟩
  · simp only [handler, mustEnv_err _ _ h]
    rfl
  · simp only [handler, mustEnv_ok _ _ d hd hdne, mustEnv_err _ _ h]
    rfl
  · simp only [handler, mustEnv_ok _ _ d hd hdne, mustEnv_ok _ _ ci hci hcine,
      mustEnv_err _ _ h]
    rfl

/-- Witness for C10: a world whose `AUTH0_CLIENT_ID` is the empty string
(domain set) fails with `Missing AUTH0_CLIENT_ID` as a 500. -/
theorem mustEnv_empty_equals_missing_witness :
    handler
      { env := [("AUTH0_DOMAIN", "x.example.com"), ("AUTH0_CLIENT_ID", "")],
        net := Except.ok "tok", fetch := fun _ _ _ => Except.error "unused",
        delete := fun _ => Except.error "unused", append := fun _ => Except.error "unused",
        now := "2024-01-01T00:00:00.000Z" } {} {} =
      (response 500 { error := some "Missing AUTH0_CLIENT_ID" }, ⟨[], [], none⟩) :=
  (mustEnv_empty_equals_missing _ {} {}).2.2.1 "x.example.com" rfl (by decide) (Or.inl rfl)

/-- C4. With config and token resolved, the orchestrator issues the
strict identity-link query first; the `app_metadata.ssoid` query is issued
only when the first returned empty; the first non-empty result set is the one
whose accounts deletion is attempted on; and when both queries return empty
the invocation reports zero matches with no deletion attempted. -/
theorem handler_query_fallback_order (w : World) (event : LambdaEvent) (ctx : Context)
    (d ci cs tk : String)
    (hd : mustEnv w.env "AUTH0_DOMAIN" = Except.ok d)
    (hci : mustEnv w.env "AUTH0_CLIENT_ID" = Except.ok ci)
    (hcs : mustEnv w.env "AUTH0_CLIENT_SECRET" = Except.ok cs)
    (ht : getMgmtToken w.net d ci cs
        (jsOr (envGet w.env "AUTH0_AUDIENCE")
          ("https://" ++ stripProtocol d ++ "/api/v2/")) = Except.ok tk) :
    (searchUsersByQuery w.fetch d tk (identQuery (getSsoid w.env event)) ≠ [] →
      (handler w event ctx).2.queries = [identQuery (getSsoid w.env event)] ∧
      (handler w event ctx).2.deletesAttempted =
        (searchUsersByQuery w.fetch d tk (identQuery (getSsoid w.env event))).map
          User.user_id) ∧
    (searchUsersByQuery w.fetch d tk (identQuery (getSsoid w.env event)) = [] →
      (handler w event ctx).2.queries =
        [identQuery (getSsoid w.env event), metaQuery (getSsoid w.env event)] ∧
      (searchUsersByQuery w.fetch d tk (metaQuery (getSsoid w.env event)) ≠ [] →
        (handler w event ctx).2.deletesAttempted =
          (searchUsersByQuery w.fetch d tk (metaQuery (getSsoid w.env event))).map
            User.user_id) ∧
      (searchUsersByQuery w.fetch d tk (metaQuery (getSsoid w.env event)) = [] →
        handler w event ctx =
          (response 200
            { message := some "Cannot find user", ssoid := some (getSsoid w.env event),
              results := some [] },
           ⟨[identQuery (getSsoid w.env event), metaQuery (getSsoid w.env event)],
            [], none⟩))) := by
  rw [handler_token_ok w event ctx d ci cs tk hd hci hcs ht]
  constructor
  · intro h1
    obtain ⟨u, us, hcons⟩ := List.exists_cons_of_ne_nil h1
    simp only [handlerAfterToken, handlerWithUsers, hcons]
    simp
  · intro h1
    simp only [handlerAfterToken, handlerWithUsers, h1]
    refine ⟨?_, fun h2 => ?_, fun h2 => by simp [h2]⟩
    · by_cases hmeta : searchUsersByQuery w.fetch d tk (metaQuery (getSsoid w.env event)) = []
      · simp [hmeta]
      · obtain ⟨u, us, hcons⟩ := List.exists_cons_of_ne_nil hmeta
        simp [hcons]
    · obtain ⟨u, us, hcons⟩ := List.exists_cons_of_ne_nil h2
      simp only [hcons]
      simp

/-- A world where the strict identity-link query finds nothing and the
metadata query finds one account; used to witness C4. -/
def fallbackWorld : World :=
  { env := [("AUTH0_DOMAIN", "x.example.com"), ("AUTH0_CLIENT_ID", "cid"),
            ("AUTH0_CLIENT_SECRET", "sec"), ("SSOID", "sso-1")],
    net := Except.ok "tok",
    fetch := fun _ _ q =>
      if q == metaQuery "sso-1" then
        Except.ok ⟨200, BodyParse.jsonArray [{ user_id := some "auth0|u1" }]⟩
      else Except.ok ⟨200, BodyParse.jsonArray []⟩,
    delete := fun _ => Except.ok (),
    append := fun _ => Except.ok (),
    now := "2024-01-01T00:00:00.000Z" }

/-- Witness for C4: both queries are issued in order, and the single
metadata-query match is the account processed. -/
theorem handler_query_fallback_order_witness :
    (handler fallbackWorld {} {}).2.queries = [identQuery "sso-1", metaQuery "sso-1"] ∧
    (handler fallbackWorld {} {}).2.deletesAttempted = [some "auth0|u1"] := by
  have h := (handler_query_fallback_order fallbackWorld {} {} "x.example.com" "cid" "sec"
    "tok" (by decide) (by decide) (by decide) (by decide)).2 (by decide)
  exact ⟨h.1, h.2.1 (by decide)⟩

/-- C3. When the search matched and at least one deletion succeeded
(rows were built), a bucket is configured, and the ledger write fails, the
invocation still returns the 200 success response summarizing the per-account
outcomes; the trace records the attempted-and-failed append, which never
surfaces in the response. -/
theorem handler_append_failure_swallowed (w : World) (event : LambdaEvent) (ctx : Context)
    (d ci cs tk m : String)
    (hd : mustEnv w.env "AUTH0_DOMAIN" = Except.ok d)
    (hci : mustEnv w.env "AUTH0_CLIENT_ID" = Except.ok ci)
    (hcs : mustEnv w.env "AUTH0_CLIENT_SECRET" = Except.ok cs)
    (ht : getMgmtToken w.net d ci cs
        (jsOr (envGet w.env "AUTH0_AUDIENCE")
          ("https://" ++ stripProtocol d ++ "/api/v2/")) = Except.ok tk)
    (hu : searchUsersByQuery w.fetch d tk (identQuery (getSsoid w.env event)) ≠ [])
    (hrows : (processUsers w (getSsoid w.env event) (getDeletedBy ctx w.env)
        (searchUsersByQuery w.fetch d tk (identQuery (getSsoid w.env event)))).2 ≠ [])
    (hbucket : truthy (envGet w.env "S3_BUCKET") = true)
    (happend : w.append (processUsers w (getSsoid w.env event) (getDeletedBy ctx w.env)
        (searchUsersByQuery w.fetch d tk (identQuery (getSsoid w.env event)))).2 =
      Except.error m) :
    handler w event ctx =
      (response 200
        { message := some "Delete attempt complete", ssoid := some (getSsoid w.env event),
          count := some (processUsers w (getSsoid w.env event) (getDeletedBy ctx w.env)
            (searchUsersByQuery w.fetch d tk (identQuery (getSsoid w.env event)))).1.length,
          results := some (processUsers w (getSsoid w.env event) (getDeletedBy ctx w.env)
            (searchUsersByQuery w.fetch d tk (identQuery (getSsoid w.env event)))).1 },
       ⟨[identQuery (getSsoid w.env event)],
        (searchUsersByQuery w.fetch d tk (identQuery (getSsoid w.env event))).map
          User.user_id,
        some ((processUsers w (getSsoid w.env event) (getDeletedBy ctx w.env)
            (searchUsersByQuery w.fetch d tk (identQuery (getSsoid w.env event)))).2,
          Except.error m)⟩) := by
  rw [handler_token_ok w event ctx d ci cs tk hd hci hcs ht]
  have hlen : ((searchUsersByQuery w.fetch d tk
      (identQuery (getSsoid w.env event))).length == 0) = false := by
    simp [List.length_eq_zero, hu]
  have hpos : (0 < (processUsers w (getSsoid w.env event) (getDeletedBy ctx w.env)
      (searchUsersByQuery w.fetch d tk (identQuery (getSsoid w.env event)))).2.length) := by
    simp [List.length_pos, hrows]
  simp only [handlerAfterToken, handlerWithUsers, hlen, hpos, hbucket, happend]
  simp [hu]
  exact ⟨hpos, happend⟩

/-- A world with one match whose deletion succeeds but whose ledger append
fails; used to witness C3. -/
def appendFailWorld : World :=
  { env := [("AUTH0_DOMAIN", "x.example.com"), ("AUTH0_CLIENT_ID", "cid"),
            ("AUTH0_CLIENT_SECRET", "sec"), ("S3_BUCKET", "bkt"), ("SSOID", "sso-2")],
    net := Except.ok "tok",
    fetch := fun _ _ q =>
      if q == identQuery "sso-2" then
        Except.ok ⟨200, BodyParse.jsonArray [{ user_id := some "auth0|u2" }]⟩
      else Except.ok ⟨200, BodyParse.jsonArray []⟩,
    delete := fun _ => Except.ok (),
    append := fun _ => Except.error "AccessDenied",
    now := "2024-01-01T00:00:00.000Z" }

/-- Witness for C3: the append was attempted and failed, yet the response is
the 200 success summary. -/
theorem handler_append_failure_swallowed_witness :
    handler appendFailWorld {} {} =
      (response 200
        { message := some "Delete attempt complete", ssoid := some "sso-2",
          count := some 1,
          results := some [{ user_id := some "auth0|u2", deleted := true }] },
       ⟨[identQuery "sso-2"], [some "auth0|u2"],
        some ([buildCsvRow "sso-2" { user_id := some "auth0|u2" }
            "2024-01-01T00:00:00.000Z" "local"],
          Except.error "AccessDenied")⟩) :=
  handler_append_failure_swallowed appendFailWorld {} {} "x.example.com" "cid" "sec" "tok"
    "AccessDenied" (by decide) (by decide) (by decide) (by decide) (by decide) (by decide)
    (by decide) (by decide)

/-- C6. With two matched accounts where the first deletion fails and the
second succeeds, the final result list contains exactly one failure entry
(carrying the message of the deletion error) and one success entry — the second
account is still processed — and exactly one LedgerRow is built and appended,
the one for the succeeding account. -/
theorem handler_per_account_isolation (w : World) (event : LambdaEvent) (ctx : Context)
    (d ci cs tk m : String) (u1 u2 : User)
    (hd : mustEnv w.env "AUTH0_DOMAIN" = Except.ok d)
    (hci : mustEnv w.env "AUTH0_CLIENT_ID" = Except.ok ci)
    (hcs : mustEnv w.env "AUTH0_CLIENT_SECRET" = Except.ok cs)
    (ht : getMgmtToken w.net d ci cs
        (jsOr (envGet w.env "AUTH0_AUDIENCE")
          ("https://" ++ stripProtocol d ++ "/api/v2/")) = Except.ok tk)
    (hsearch : searchUsersByQuery w.fetch d tk (identQuery (getSsoid w.env event)) =
      [u1, u2])
    (h1 : w.delete u1.user_id = Except.error m)
    (h2 : w.delete u2.user_id = Except.ok ())
    (hbucket : truthy (envGet w.env "S3_BUCKET") = true) :
    handler w event ctx =
      (response 200
        { message := some "Delete attempt complete", ssoid := some (getSsoid w.env event),
          count := some 2,
          results := some
            [{ user_id := u1.user_id, deleted := false, error := some m },
             { user_id := u2.user_id, deleted := true }] },
       ⟨[identQuery (getSsoid w.env event)], [u1.user_id, u2.user_id],
        some ([buildCsvRow (getSsoid w.env event) u2 w.now (getDeletedBy ctx w.env)],
          w.append [buildCsvRow (getSsoid w.env event) u2 w.now
            (getDeletedBy ctx w.env)])⟩) := by
  rw [handler_token_ok w event ctx d ci cs tk hd hci hcs ht]
  have hpu : processUsers w (getSsoid w.env event) (getDeletedBy ctx w.env) [u1, u2] =
      ([{ user_id := u1.user_id, deleted := false, error := some m },
        { user_id := u2.user_id, deleted := true }],
       [buildCsvRow (getSsoid w.env event) u2 w.now (getDeletedBy ctx w.env)]) := by
    simp only [processUsers, List.foldl_cons, List.foldl_nil]
    rw [h1, h2]
    simp
  simp [handlerAfterToken, handlerWithUsers, hsearch, hpu, hbucket]

/-- A world with two matches, the first deletion failing and the second
succeeding; used to witness C6. -/
def twoAccountWorld : World :=
  { env := [("AUTH0_DOMAIN", "x.example.com"), ("AUTH0_CLIENT_ID", "cid"),
            ("AUTH0_CLIENT_SECRET", "sec"), ("S3_BUCKET", "bkt"), ("SSOID", "sso-3")],
    net := Except.ok "tok",
    fetch := fun _ _ q =>
      if q == identQuery "sso-3" then
        Except.ok ⟨200, BodyParse.jsonArray
          [{ user_id := some "auth0|bad" }, { user_id := some "auth0|good" }]⟩
      else Except.ok ⟨200, BodyParse.jsonArray []⟩,
    delete := fun uid => if uid == some "auth0|bad" then Except.error "boom"
      else Except.ok (),
    append := fun _ => Except.ok (),
    now := "2024-01-01T00:00:00.000Z" }

/-- Witness for C6 at two concrete accounts. -/
theorem handler_per_account_isolation_witness :
    handler twoAccountWorld {} {} =
      (response 200
        { message := some "Delete attempt complete", ssoid := some "sso-3",
          count := some 2,
          results := some
            [{ user_id := some "auth0|bad", deleted := false, error := some "boom" },
             { user_id := some "auth0|good", deleted := true }] },
       ⟨[identQuery "sso-3"], [some "auth0|bad", some "auth0|good"],
        some ([buildCsvRow "sso-3" { user_id := some "auth0|good" }
            "2024-01-01T00:00:00.000Z" "local"],
          Except.ok ())⟩) :=
  handler_per_account_isolation twoAccountWorld {} {} "x.example.com" "cid" "sec" "tok"
    "boom" { user_id := some "auth0|bad" } { user_id := some "auth0|good" }
    (by decide) (by decide) (by decide) (by decide) (by decide) (by decide) (by decide)
    (by decide)

/-- C7. In a built LedgerRow: an absent source value renders as the empty
string (account id, email, the name chain, timestamps), the numeric
`logins_count` renders only when finite and as the empty string otherwise,
any field value containing a comma, double quote or line break is wrapped in
double quotes with internal double quotes doubled, and every other field
value renders unchanged. -/
theorem csvRow_field_rendering (s : String) (u : User) (ssoid now deletedBy : String) :
    (needsQuote s = false → csvEscape s = s) ∧
    (needsQuote s = true →
      csvEscape s = String.mk
        ('"' :: (s.data.flatMap (fun c => if c == '"' then ['"', '"'] else [c]) ++ ['"']))) ∧
    (safeNum none = "" ∧ safeNum (some JsNum.nan) = "" ∧
     safeNum (some JsNum.posInf) = "" ∧ safeNum (some JsNum.negInf) = "" ∧
     ∀ r, safeNum (some (JsNum.finite r)) = r) ∧
    (u.user_id = none → (rowFields ssoid u now deletedBy)[3]? = some "") ∧
    (u.email = none → (rowFields ssoid u now deletedBy)[4]? = some "") ∧
    (u.name = none → u.nickname = none → u.username = none →
      (rowFields ssoid u now deletedBy)[5]? = some "") ∧
    (u.created_at = none → (rowFields ssoid u now deletedBy)[8]? = some "") ∧
    (u.last_login = none → (rowFields ssoid u now deletedBy)[9]? = some "") ∧
    (rowFields ssoid u now deletedBy)[10]? = some (safeNum u.logins_count) ∧
    buildCsvRow ssoid u now deletedBy =
      String.intercalate "," ((rowFields ssoid u now deletedBy).map csvEscape) ++ "\n" := by
  refine ⟨fun h => by simp [csvEscape, h],
          fun h => by
            simp only [csvEscape, h]
            rw [if_pos trivial, csvQuote_foldr_eq_bind],
          ⟨rfl, rfl, rfl, rfl, fun r => rfl⟩,
          fun h => by simp [rowFields, h, jsOr],
          fun h => by simp [rowFields, h, jsOr],
          fun h hn hu' => by simp [rowFields, h, hn, hu', jsOr],
          fun h => by simp [rowFields, h, jsOr],
          fun h => by simp [rowFields, h, jsOr],
          by simp [rowFields], rfl⟩

/-- Witness for C7: quoting, non-quoting, and absent-field rendering at
concrete values. -/
theorem csvRow_field_rendering_witness :
    csvEscape "plain" = "plain" ∧
    csvEscape "a\"b,c" = String.mk
      ('"' :: ("a\"b,c".data.flatMap (fun c => if c == '"' then ['"', '"'] else [c]) ++ ['"'])) ∧
    (rowFields "s" {} "t" "d")[3]? = some "" ∧
    (rowFields "s" {} "t" "d")[5]? = some "" ∧
    (rowFields "s" { logins_count := some JsNum.nan } "t" "d")[10]? =
      some (safeNum (some JsNum.nan)) :=
  ⟨(csvRow_field_rendering "plain" {} "s" "t" "d").1 (by decide),
   (csvRow_field_rendering "a\"b,c" {} "s" "t" "d").2.1 (by decide),
   (csvRow_field_rendering "x" {} "s" "t" "d").2.2.2.1 rfl,
   (csvRow_field_rendering "x" {} "s" "t" "d").2.2.2.2.2.1 rfl rfl rfl,
   (csvRow_field_rendering "x" { logins_count := some JsNum.nan } "s" "t"
     "d").2.2.2.2.2.2.2.2.1⟩

/-- Response-envelope shape of the post-token stage: every outcome is a 200
whose body has `message`, `ssoid` and `results`, with `count` present except
in the zero-match case (where `results` is the empty list). -/
theorem handlerAfterToken_shape (w : World) (event : LambdaEvent) (ctx : Context)
    (d tk : String) :
    ((handlerAfterToken w event ctx d tk).1.statusCode = 200 ∧
     (handlerAfterToken w event ctx d tk).1.body.message.isSome = true ∧
     (handlerAfterToken w event ctx d tk).1.body.ssoid.isSome = true ∧
     (handlerAfterToken w event ctx d tk).1.body.results.isSome = true ∧
     ((handlerAfterToken w event ctx d tk).1.body.count.isSome = true ∨
       (handlerAfterToken w event ctx d tk).1.body.results = some []) ∧
     (handlerAfterToken w event ctx d tk).1.body.error = none) := by
  simp only [handlerAfterToken, handlerWithUsers, response]
  repeat' split
  all_goals simp

/-- C8. Every non-terminal outcome — the zero-match case and partial
per-account failures included — is a 200 whose JSON body carries `message`
and, on the success path, `ssoid`, `count` and `results` (the zero-match 200
carries `ssoid` and an empty `results` but no `count`); every terminal error
is a 500 whose body carries `error`. -/
theorem response_envelope_shape (w : World) (event : LambdaEvent) (ctx : Context) :
    ((handler w event ctx).1.statusCode = 200 ∧
     (handler w event ctx).1.body.message.isSome = true ∧
     (handler w event ctx).1.body.ssoid.isSome = true ∧
     (handler w event ctx).1.body.results.isSome = true ∧
     ((handler w event ctx).1.body.count.isSome = true ∨
       (handler w event ctx).1.body.results = some []) ∧
     (handler w event ctx).1.body.error = none) ∨
    ((handler w event ctx).1.statusCode = 500 ∧
     (handler w event ctx).1.body.error.isSome = true ∧
     (handler w event ctx).1.body.message = none) := by
  unfold handler
  repeat' split
  all_goals first
    | (right; simp [response])
    | (left; exact handlerAfterToken_shape w event ctx _ _)

end Auth0Cleanup
